import Mathlib

/-
Shallow embedding of `lib/ansible/modules/storage/netapp/sf_cluster_account_manager.py`
(the SolidFire cluster-admin account reconciler) and proofs about its
reconciliation behaviour.

Modelling conventions:
- Python `None`-able values are `Option`s; the required `access` list parameter
  is a plain `List String` (it is never `None` after argument parsing).
- Attribute dictionaries are modelled as association lists
  `List (String × String)`; Python dict (in)equality (`!=`, order-insensitive,
  by value) is modelled by `dictEq`.
- Python `set(a) != set(b)` on permission lists is modelled by `listSetEq`.
- Python `list.remove("read")` removes the first occurrence and raises
  `ValueError` when the element is absent; `None.access` raises
  `AttributeError`.  Both uncaught exceptions are modelled as `Err` values
  threaded through `Except`.
- The remote service is modelled by the list of cluster-admin records that
  `list_cluster_admins` returns; every remote call the module issues is
  recorded in a trace (`RemoteCall`), and mutating calls are assumed to
  succeed (remote-side failures are out of scope of the claims).
-/

deriving instance DecidableEq for Except

namespace SfClusterAccount

/-- The `state` module parameter (`choices=['present', 'absent']`). -/
inductive AccountState
  | present
  | absent
deriving DecidableEq

/-- A remote cluster-admin record as returned by `list_cluster_admins`
(fields `username`, `cluster_admin_id`, `access`, `attributes`).
`username` is a plain string — the SDK always supplies one, so the
`account_detail.username is not None` conjunct of the rename check
(line 226) is always true and is folded away in `decide_action`. -/
structure ClusterAdmin where
  username : String
  cluster_admin_id : Int
  access : Option (List String)
  attributes : Option (List (String × String))
deriving DecidableEq

/-- The module parameters after Ansible argument parsing.  `password` is the
connection-level password from `ontap_sf_host_argument_spec()`;
`user_password` and `status` are the module-specific parameters declared in
the `argument_spec` update; `check_mode` is Ansible check mode. -/
structure Params where
  state : AccountState
  name : String
  password : String
  user_password : String
  access : List String
  account_id : Option Int
  new_name : Option String
  attributes : Option (List (String × String))
  status : Option String
  check_mode : Bool
deriving DecidableEq

/-- The state variables set on `self` in `__init__` (lines 130-148).  Note
that the source sets `self.user_password = p['password']` — the connection
password — not `p['user_password']`. -/
structure ModuleState where
  state : AccountState
  name : String
  user_password : String
  account_id : Option Int
  new_name : Option String
  attributes : Option (List (String × String))
  status : Option String
  access : List String
  check_mode : Bool
deriving DecidableEq

/-- Fatal outcomes of an invocation: `fail_json` on an invalid access token
(line 146), the uncaught `AttributeError` from `account_detail.access` when
`get_account` returned `None` (line 214), and the uncaught `ValueError` from
`list.remove("read")` when `"read"` is absent (line 215). -/
inductive Err
  | validation (token : String)
  | attributeError
  | valueError
deriving DecidableEq

/-- The decided reconciliation action (the spec's `Action`). -/
inductive Action
  | noop
  | create
  | update
  | delete
deriving DecidableEq

/-- One remote call, with the exact fields the source transmits. -/
inductive RemoteCall
  | connect
  | listAccounts
  | createAccount (accept_eula : String) (access : List String)
      (username : String) (password : String)
      (attributes : Option (List (String × String)))
  | deleteAccount (cluster_admin_id : Option Int)
  | modifyAccount (cluster_admin_id : Option Int)
      (attributes : Option (List (String × String))) (access : List String)
deriving DecidableEq

/-- The observable outcome of an invocation: the trace of remote calls made,
and either the reported `changed` boolean (`exit_json`) or a fatal error. -/
structure RunResult where
  trace : List RemoteCall
  result : Except Err Bool
deriving DecidableEq

/-- The fixed permission vocabulary (line 142). -/
def valid_access_type : List String :=
  ["accounts", "administrator", "clusteradmins", "drives", "nodes", "read",
   "reporting", "repositories", "volumes", "write"]

/-- The first entry of `access` that is not in the vocabulary — the token the
validation loop (lines 144-146) fails on. -/
def firstInvalid (access : List String) : Option String :=
  access.find? (fun permission => !(valid_access_type.contains permission))

/-- The state-variable assignments of `__init__` (lines 133-139, 148).
`user_password` is taken from the connection-level `password` parameter
(line 135), and `check_mode` from the Ansible module. -/
def mkState (p : Params) : ModuleState :=
  { state := p.state
    name := p.name
    user_password := p.password
    account_id := p.account_id
    new_name := p.new_name
    attributes := p.attributes
    status := p.status
    access := p.access
    check_mode := p.check_mode }

/-- `__init__`: validate every access token against the vocabulary, failing
on the first invalid one (lines 141-146), then record the state variables. -/
def init (p : Params) : Except Err ModuleState :=
  match firstInvalid p.access with
  | some permission => .error (.validation permission)
  | none => .ok (mkState p)

/-- `get_account` (lines 155-173): linear scan of the remote account list.
A username match with a non-matching supplied `account_id` is skipped and the
scan continues; without a supplied `account_id` the first username match is
returned and `self.account_id` is updated to its id.  Returns the found
record (if any) together with the final value of `self.account_id`. -/
def get_account : List ClusterAdmin → String → Option Int →
    Option ClusterAdmin × Option Int
  | [], _, account_id => (none, account_id)
  | account :: rest, name, account_id =>
    if account.username = name then
      match account_id with
      | some i =>
        if account.cluster_admin_id = i then (some account, some i)
        else get_account rest name (some i)
      | none => (some account, some account.cluster_admin_id)
    else get_account rest name account_id

/-- Python dict equality by value (order-insensitive): the two association
lists agree on every key of each. -/
def dictEq (a b : List (String × String)) : Bool :=
  a.all (fun kv => b.lookup kv.1 == some kv.2) &&
  b.all (fun kv => a.lookup kv.1 == some kv.2)

/-- Python `set(a) != set(b)` negated: the two lists have the same elements. -/
def listSetEq (a b : List String) : Bool :=
  a.all (fun x => b.contains x) && b.all (fun x => a.contains x)

/-- Lines 214-215: `if account_detail.access is not None:
account_detail.access.remove("read")`.  This runs before the
`if account_detail:` check, so a `None` result from `get_account` raises
`AttributeError`; and `list.remove` raises `ValueError` when `"read"` is not
in the list (the guard only checks that `access` is not `None`). -/
def stripRead : Option ClusterAdmin → Except Err (Option ClusterAdmin)
  | none => .error .attributeError
  | some account_detail =>
    match account_detail.access with
    | none => .ok (some account_detail)
    | some l =>
      if l.contains "read" then
        .ok (some { account_detail with access := some (l.erase "read") })
      else
        .error .valueError

/-- The decision logic of `apply` (lines 217-243), on the (already
read-stripped) fetched record: current exists and state absent → delete;
current exists and state present → update when the rename / attributes /
access comparisons (lines 226-239) detect a difference, otherwise noop;
no current → create when state present, otherwise noop. -/
def decide_action (st : ModuleState) (account_detail : Option ClusterAdmin) :
    Action :=
  match account_detail with
  | some acct =>
    match st.state with
    | .absent => .delete
    | .present =>
      if (match st.new_name with
          | some n => acct.username != n
          | none => false) then .update
      else if (match acct.attributes, st.attributes with
          | some a, some b => !(dictEq a b)
          | _, _ => false) then .update
      else if (match acct.access with
          | some l => !(listSetEq l st.access)
          | none => false) then .update
      else .noop
  | none =>
    match st.state with
    | .present => .create
    | .absent => .noop

/-- `changed` as reported by `exit_json`: true exactly when the decision is
not a no-op (lines 221, 229, 234, 239, 243). -/
def changedOf : Action → Bool
  | .noop => false
  | _ => true

/-- `create_account` (lines 175-184): the exact `add_cluster_admin` call,
with `accept_eula="true"` and `password=self.user_password`. -/
def create_account_call (st : ModuleState) : RemoteCall :=
  .createAccount "true" st.access st.name st.user_password st.attributes

/-- The body of `apply` (lines 204-258) after `get_account`: read-strip the
fetched record (lines 214-215), decide, and — unless `changed` is false or
check mode is on — issue the one corresponding mutation call
(lines 245-256).  The final resolved `self.account_id` is the second
component of `fetched`. -/
def applyCore (st : ModuleState) (fetched : Option ClusterAdmin × Option Int) :
    RunResult :=
  match stripRead fetched.1 with
  | .error e => ⟨[.listAccounts], .error e⟩
  | .ok account_detail =>
    let action := decide_action st account_detail
    let muts : List RemoteCall :=
      if st.check_mode then []
      else
        match action with
        | .create => [create_account_call st]
        | .update => [.modifyAccount fetched.2 st.attributes st.access]
        | .delete => [.deleteAccount fetched.2]
        | .noop => []
    ⟨.listAccounts :: muts, .ok (changedOf action)⟩

/-- `apply` (lines 204-258): fetch the current record, then reconcile. -/
def apply (st : ModuleState) (remote : List ClusterAdmin) : RunResult :=
  applyCore st (get_account remote st.name st.account_id)

/-- A whole invocation (`main`): `__init__` — argument validation, then SDK
connection (line 153) — followed by `apply`.  A validation failure happens
before the connection is established, so its trace is empty. -/
def run (p : Params) (remote : List ClusterAdmin) : RunResult :=
  match init p with
  | .error e => ⟨[], .error e⟩
  | .ok st =>
    let r := apply st remote
    ⟨.connect :: r.trace, r.result⟩

/-- Remote calls that mutate the remote system. -/
def isMutation : RemoteCall → Bool
  | .createAccount _ _ _ _ _ => true
  | .deleteAccount _ => true
  | .modifyAccount _ _ _ => true
  | _ => false

/-- The mutating portion of a trace. -/
def mutationCalls (t : List RemoteCall) : List RemoteCall :=
  t.filter isMutation

/-- Bridge from the Boolean `contains` test to list membership. -/
theorem mem_of_contains {l : List String} {x : String}
    (h : l.contains x = true) : x ∈ l :=
  List.mem_of_elem_eq_true h

/-- C1: the claim says that when the remote fetch finds no account, the
reconciler decides Create (state present, changed true) or NoOp (state
absent, changed false) and completes normally.  The code instead dereferences
the `None` fetch result at line 214 (`account_detail.access`) before the
`if account_detail:` check, so both invocations die with an uncaught
`AttributeError` and no `changed` value is ever reported: the module can
never actually create an account.  This theorem evaluates the embedded code
at the two failing inputs (the spec's create and absent-with-no-current
scenarios, against an empty remote account list). -/
theorem c1_missing_account_raises_attribute_error :
    run { state := .present, name := "TenantA", password := "p",
          user_password := "p", access := ["volumes"], account_id := none,
          new_name := none, attributes := none, status := none,
          check_mode := false } [] =
      ⟨[.connect, .listAccounts], .error .attributeError⟩ ∧
    run { state := .absent, name := "Ghost", password := "p",
          user_password := "p", access := [], account_id := none,
          new_name := none, attributes := none, status := none,
          check_mode := false } [] =
      ⟨[.connect, .listAccounts], .error .attributeError⟩ := by
  exact ⟨rfl, rfl⟩

/-- C9: with two remote records sharing the desired username but having
different ids, `get_account` called with `accountId` equal to the second
record's id skips the first (name-matching, id-mismatching) entry and
returns exactly the second; the skip is a genuine continue of the scan
(second conjunct, over an arbitrary tail); with no `accountId` supplied the
first name match is returned (and the id is resolved from it). -/
theorem c9_get_account_disambiguation (r₁ r₂ : ClusterAdmin) (n : String)
    (h₁ : r₁.username = n) (h₂ : r₂.username = n)
    (hid : r₁.cluster_admin_id ≠ r₂.cluster_admin_id) :
    get_account [r₁, r₂] n (some r₂.cluster_admin_id) =
      (some r₂, some r₂.cluster_admin_id) ∧
    (∀ rest : List ClusterAdmin,
      get_account (r₁ :: rest) n (some r₂.cluster_admin_id) =
        get_account rest n (some r₂.cluster_admin_id)) ∧
    get_account [r₁, r₂] n none = (some r₁, some r₁.cluster_admin_id) := by
  refine ⟨?_, ?_, ?_⟩ <;> simp [get_account, h₁, h₂, hid]

/-- Witness for C9 at a concrete two-record collision. -/
theorem c9_witness :
    get_account [⟨"X", 1, none, none⟩, ⟨"X", 2, none, none⟩] "X" (some 2) =
      (some ⟨"X", 2, none, none⟩, some 2) ∧
    get_account [⟨"X", 1, none, none⟩, ⟨"X", 2, none, none⟩] "X" none =
      (some ⟨"X", 1, none, none⟩, some 1) :=
  ⟨(c9_get_account_disambiguation ⟨"X", 1, none, none⟩ ⟨"X", 2, none, none⟩
      "X" rfl rfl (by decide)).1,
   (c9_get_account_disambiguation ⟨"X", 1, none, none⟩ ⟨"X", 2, none, none⟩
      "X" rfl rfl (by decide)).2.2⟩

/-- The validation loop fails on the first out-of-vocabulary token, in list
order. -/
theorem firstInvalid_split (pre post : List String) (tok : String)
    (hpre : ∀ y ∈ pre, valid_access_type.contains y = true)
    (htok : valid_access_type.contains tok = false) :
    firstInvalid (pre ++ tok :: post) = some tok := by
  induction pre with
  | nil =>
    unfold firstInvalid
    exact List.find?_cons_of_pos _ (by rw [htok]; rfl)
  | cons y ys ih =>
    have hy : valid_access_type.contains y = true := hpre y (by simp)
    have hys : ∀ z ∈ ys, valid_access_type.contains z = true :=
      fun z hz => hpre z (by simp [hz])
    have hstep :
        firstInvalid (y :: (ys ++ tok :: post)) =
          firstInvalid (ys ++ tok :: post) := by
      unfold firstInvalid
      exact List.find?_cons_of_neg _ (by rw [hy]; simp)
    rw [List.cons_append, hstep]
    exact ih hys

/-- C8: an `access` list containing a token outside the fixed vocabulary
makes the invocation fail with a ValidationError naming the first invalid
token in list order, with an empty remote-call trace — in particular before
the SDK connection (line 153) and before any account listing. -/
theorem c8_validation_precedes_remote (p : Params) (remote : List ClusterAdmin)
    (pre post : List String) (tok : String)
    (hsplit : p.access = pre ++ tok :: post)
    (hpre : ∀ y ∈ pre, valid_access_type.contains y = true)
    (htok : valid_access_type.contains tok = false) :
    run p remote = ⟨[], .error (.validation tok)⟩ := by
  have h := firstInvalid_split pre post tok hpre htok
  simp [run, init, hsplit, h]

/-- Witness for C8: `access = ["volumes", "bogus", "write"]` fails on
`"bogus"` with no remote call, even with a populated remote list. -/
theorem c8_witness :
    (∀ y ∈ ["volumes"], valid_access_type.contains y = true) ∧
    valid_access_type.contains "bogus" = false ∧
    run { state := .present, name := "TenantA", password := "p",
          user_password := "p", access := ["volumes", "bogus", "write"],
          account_id := none, new_name := none, attributes := none,
          status := none, check_mode := false }
        [⟨"TenantA", 1, some ["read"], none⟩] =
      ⟨[], .error (.validation "bogus")⟩ :=
  ⟨by decide, by decide,
   c8_validation_precedes_remote _ _ ["volumes"] ["write"] "bogus" rfl
     (by decide) (by decide)⟩

/-- The decision logic never reads the check-mode flag. -/
theorem decide_action_ignores_check (s : AccountState) (n up : String)
    (aid : Option Int) (nn : Option String)
    (attrs : Option (List (String × String))) (stat : Option String)
    (acc : List String) (b₁ b₂ : Bool) (d : Option ClusterAdmin) :
    decide_action ⟨s, n, up, aid, nn, attrs, stat, acc, b₁⟩ d =
      decide_action ⟨s, n, up, aid, nn, attrs, stat, acc, b₂⟩ d := by
  cases d with
  | none => cases s <;> rfl
  | some acct => cases s <;> rfl

/-- The reported outcome (`changed` or a fatal error) never depends on the
check-mode flag. -/
theorem applyCore_result_ignores_check (s : AccountState) (n up : String)
    (aid : Option Int) (nn : Option String)
    (attrs : Option (List (String × String))) (stat : Option String)
    (acc : List String) (b₁ b₂ : Bool)
    (fetched : Option ClusterAdmin × Option Int) :
    (applyCore ⟨s, n, up, aid, nn, attrs, stat, acc, b₁⟩ fetched).result =
      (applyCore ⟨s, n, up, aid, nn, attrs, stat, acc, b₂⟩ fetched).result := by
  unfold applyCore
  cases hs : stripRead fetched.1 with
  | error e => rfl
  | ok d => simp [decide_action_ignores_check s n up aid nn attrs stat acc b₁ b₂]

/-- With check mode on, the reconciliation makes no mutating remote call. -/
theorem applyCore_check_no_mutations (s : AccountState) (n up : String)
    (aid : Option Int) (nn : Option String)
    (attrs : Option (List (String × String))) (stat : Option String)
    (acc : List String) (fetched : Option ClusterAdmin × Option Int) :
    mutationCalls
      (applyCore ⟨s, n, up, aid, nn, attrs, stat, acc, true⟩ fetched).trace =
      [] := by
  unfold applyCore
  cases hs : stripRead fetched.1 with
  | error e => rfl
  | ok d => rfl

/-- The connection call is not a mutation. -/
theorem mutationCalls_connect (t : List RemoteCall) :
    mutationCalls (.connect :: t) = mutationCalls t := rfl

/-- C7: an invocation in check mode reports exactly the same outcome (the
same `changed` value, or the same fatal error) as the identical invocation
out of check mode, and the check-mode invocation performs zero remote
mutation calls (no create, modify, or delete). -/
theorem c7_dry_run_purity (p : Params) (remote : List ClusterAdmin) :
    (run { p with check_mode := true } remote).result =
      (run { p with check_mode := false } remote).result ∧
    mutationCalls (run { p with check_mode := true } remote).trace = [] := by
  obtain ⟨ps, pn, pw, pup, pacc, paid, pnn, pattrs, pstat, pcm⟩ := p
  simp only [run, init, mkState, apply]
  cases h : firstInvalid pacc with
  | some tok => exact ⟨rfl, rfl⟩
  | none =>
    constructor
    · exact applyCore_result_ignores_check ps pn pw paid pnn pattrs pstat pacc
        true false _
    · exact (mutationCalls_connect _).trans
        (applyCore_check_no_mutations ps pn pw paid pnn pattrs pstat pacc _)

/-- When `get_account` finds a record, the final `self.account_id` is the
supplied `accountId` if one was given, and otherwise the found record's id
(line 171). -/
theorem get_account_resolves_id (admins : List ClusterAdmin) (name : String)
    (idO : Option Int) (r : ClusterAdmin)
    (h : (get_account admins name idO).1 = some r) :
    (get_account admins name idO).2 = some (idO.getD r.cluster_admin_id) := by
  induction admins with
  | nil => simp [get_account] at h
  | cons a rest ih =>
    by_cases hu : a.username = name
    · cases idO with
      | some i =>
        by_cases hid : a.cluster_admin_id = i
        · simp [get_account, hu, hid] at h ⊢
        · simp only [get_account, if_pos hu, if_neg hid] at h ⊢
          exact ih h
      | none =>
        simp [get_account, hu] at h ⊢
        rw [← h]
    · simp only [get_account, if_neg hu] at h ⊢
      exact ih h

/-- C10: with state absent and an existing current record (whose access set
satisfies the remote invariant of containing `read`, or is absent), the
reconciler decides Delete, reports changed = true, and outside check mode
makes exactly one mutating call: a delete carrying the account id resolved
from the lookup (or the supplied `accountId`). -/
theorem c10_absent_deletes_resolved_id (st : ModuleState)
    (remote : List ClusterAdmin) (r : ClusterAdmin)
    (hstate : st.state = .absent) (hcheck : st.check_mode = false)
    (hfetch : (get_account remote st.name st.account_id).1 = some r)
    (hread : r.access = none ∨
      ∃ l, r.access = some l ∧ l.contains "read" = true) :
    apply st remote =
      ⟨[.listAccounts,
        .deleteAccount (some (st.account_id.getD r.cluster_admin_id))],
       .ok true⟩ := by
  have hid := get_account_resolves_id remote st.name st.account_id r hfetch
  rcases hread with hnone | ⟨l, hl, hrd⟩
  · simp [apply, applyCore, hfetch, hid, stripRead, hnone, decide_action,
      hstate, hcheck, changedOf]
  · have hm : "read" ∈ l := mem_of_contains hrd
    simp [apply, applyCore, hfetch, hid, stripRead, hl, hm, decide_action,
      hstate, hcheck, changedOf]

/-- Witness for C10 at the spec's delete scenario. -/
theorem c10_witness :
    apply ⟨.absent, "TenantA-Renamed", "p", none, none, none, none, [], false⟩
        [⟨"TenantA-Renamed", 7, some ["read", "volumes"], none⟩] =
      ⟨[.listAccounts, .deleteAccount (some 7)], .ok true⟩ :=
  c10_absent_deletes_resolved_id
    ⟨.absent, "TenantA-Renamed", "p", none, none, none, none, [], false⟩
    [⟨"TenantA-Renamed", 7, some ["read", "volumes"], none⟩]
    ⟨"TenantA-Renamed", 7, some ["read", "volumes"], none⟩
    rfl rfl rfl (Or.inr ⟨["read", "volumes"], rfl, by decide⟩)

/-- C4: with state present and a current record that matches the desired
spec exactly after read-stripping — `newName` unset or equal to the current
username, attributes equal by value (both absent or both present and
dict-equal), access equal as a set after stripping `read` — the decision is
NoOp, changed = false is reported, and no mutating remote call is made, for
all valid permission sets. -/
theorem c4_idempotent_noop (st : ModuleState) (r : ClusterAdmin)
    (idO : Option Int) (l : List String)
    (hstate : st.state = .present)
    (_hvalid : ∀ x ∈ st.access, x ∈ valid_access_type)
    (hname : st.new_name = none ∨ st.new_name = some r.username)
    (hattrs : (r.attributes = none ∧ st.attributes = none) ∨
      ∃ a b, r.attributes = some a ∧ st.attributes = some b ∧
        dictEq a b = true)
    (haccess : r.access = some l) (hread : l.contains "read" = true)
    (hseteq : listSetEq (l.erase "read") st.access = true) :
    decide_action st (some { r with access := some (l.erase "read") }) =
      .noop ∧
    applyCore st (some r, idO) = ⟨[.listAccounts], .ok false⟩ := by
  have hm : "read" ∈ l := mem_of_contains hread
  have hdec :
      decide_action st (some { r with access := some (l.erase "read") }) =
        .noop := by
    rcases hname with hn | hn <;>
      rcases hattrs with ⟨ha1, ha2⟩ | ⟨a, b, ha1, ha2, hab⟩ <;>
      first
      | simp [decide_action, hstate, hn, ha1, ha2, hab, hseteq]
      | simp [decide_action, hstate, hn, ha1, ha2, hseteq]
  refine ⟨hdec, ?_⟩
  simp [applyCore, stripRead, haccess, hm, hdec, changedOf]

/-- Witness for C4: desired access `["volumes"]` against a current record
holding `["read", "volumes"]` is a no-op. -/
theorem c4_witness :
    decide_action
        ⟨.present, "TenantA", "p", none, none, none, none, ["volumes"], false⟩
        (some ⟨"TenantA", 1, some ["volumes"], none⟩) = .noop ∧
    applyCore
        ⟨.present, "TenantA", "p", none, none, none, none, ["volumes"], false⟩
        (some ⟨"TenantA", 1, some ["read", "volumes"], none⟩, some 1) =
      ⟨[.listAccounts], .ok false⟩ :=
  c4_idempotent_noop
    ⟨.present, "TenantA", "p", none, none, none, none, ["volumes"], false⟩
    ⟨"TenantA", 1, some ["read", "volumes"], none⟩ (some 1)
    ["read", "volumes"] rfl (by decide) (Or.inl rfl) (Or.inl ⟨rfl, rfl⟩)
    rfl (by decide) (by decide)

/-- C5 counterexample: desired attributes are set while the current record's
attributes are absent, everything else matches — the claim demands Update,
but the code's guard `account_detail.attributes is not None and
self.attributes is not None` (line 231) is false, so the decision is NoOp
and the run reports changed = false. -/
theorem c5_counterexample :
    decide_action
        ⟨.present, "TenantA", "p", none, none, some [("project", "x")], none,
         ["volumes"], false⟩
        (some ⟨"TenantA", 1, some ["volumes"], none⟩) = .noop ∧
    run { state := .present, name := "TenantA", password := "p",
          user_password := "p", access := ["volumes"], account_id := none,
          new_name := none, attributes := some [("project", "x")],
          status := none, check_mode := false }
        [⟨"TenantA", 1, some ["read", "volumes"], none⟩] =
      ⟨[.connect, .listAccounts], .ok false⟩ :=
  ⟨rfl, rfl⟩

/-- C5 (amended): with state present and an existing current record, if the
desired attributes and the current record's attributes are both set and
differ by value, the decided action is Update; when the current record's
attributes are absent, the attributes comparison does not trigger an
update. -/
theorem c5_update_on_differing_attributes (st : ModuleState)
    (r : ClusterAdmin) (a b : List (String × String))
    (hstate : st.state = .present)
    (hra : r.attributes = some a) (hsb : st.attributes = some b)
    (hne : dictEq a b = false) :
    decide_action st (some r) = .update := by
  by_cases h1 :
      (match st.new_name with
        | some n => r.username != n
        | none => false) = true
  · simp [decide_action, hstate, h1]
  · simp [decide_action, hstate, h1, hra, hsb, hne]

/-- Witness for C5 (amended): both attribute dicts present and differing. -/
theorem c5_witness :
    dictEq [("project", "x")] [("project", "y")] = false ∧
    decide_action
        ⟨.present, "TenantA", "p", none, none, some [("project", "y")], none,
         ["volumes"], false⟩
        (some ⟨"TenantA", 1, some ["volumes"], some [("project", "x")]⟩) =
      .update :=
  ⟨by decide,
   c5_update_on_differing_attributes
     ⟨.present, "TenantA", "p", none, none, some [("project", "y")], none,
      ["volumes"], false⟩
     ⟨"TenantA", 1, some ["volumes"], some [("project", "x")]⟩
     [("project", "x")] [("project", "y")] rfl rfl rfl (by decide)⟩

/-- C6: with state present, an existing current record and a `newName` that
differs from the current username, the decision is Update, changed = true is
reported, and (outside check mode) the one mutating call is a modify
transmitting exactly `{accountId, attributes, access}` — the
`modifyAccount` call carries no name field, so the new name is not
transmitted. -/
theorem c6_rename_triggers_update (st : ModuleState) (r : ClusterAdmin)
    (idO : Option Int) (n : String)
    (hstate : st.state = .present) (hcheck : st.check_mode = false)
    (hnew : st.new_name = some n) (hdiff : r.username ≠ n)
    (hread : r.access = none ∨
      ∃ l, r.access = some l ∧ l.contains "read" = true) :
    applyCore st (some r, idO) =
      ⟨[.listAccounts, .modifyAccount idO st.attributes st.access],
       .ok true⟩ := by
  rcases hread with hnone | ⟨l, hl, hrd⟩
  · simp [applyCore, stripRead, hnone, decide_action, hstate, hnew, hdiff,
      hcheck, changedOf]
  · have hm : "read" ∈ l := mem_of_contains hrd
    simp [applyCore, stripRead, hl, hm, decide_action, hstate, hnew, hdiff,
      hcheck, changedOf]

/-- Witness for C6 at the spec's rename scenario. -/
theorem c6_witness :
    applyCore
        ⟨.present, "TenantA", "p", none, some "TenantA-Renamed", none, none,
         ["volumes"], false⟩
        (some ⟨"TenantA", 5, some ["read", "volumes"], none⟩, some 5) =
      ⟨[.listAccounts, .modifyAccount (some 5) none ["volumes"]], .ok true⟩ :=
  c6_rename_triggers_update
    ⟨.present, "TenantA", "p", none, some "TenantA-Renamed", none, none,
     ["volumes"], false⟩
    ⟨"TenantA", 5, some ["read", "volumes"], none⟩ (some 5) "TenantA-Renamed"
    rfl rfl rfl (by decide) (Or.inr ⟨["read", "volumes"], rfl, by decide⟩)

/-- `listSetEq` is exactly mutual membership. -/
theorem listSetEq_iff (a b : List String) :
    listSetEq a b = true ↔ ∀ x : String, x ∈ a ↔ x ∈ b := by
  simp only [listSetEq, Bool.and_eq_true, List.all_eq_true, List.contains,
    List.elem_eq_mem, decide_eq_true_eq]
  constructor
  · rintro ⟨h1, h2⟩ x
    exact ⟨fun hx => h1 x hx, fun hx => h2 x hx⟩
  · intro h
    exact ⟨fun x hx => (h x).mp hx, fun x hx => (h x).mpr hx⟩

/-- Replacing a list by a set-equal one does not change any `set(·) == set(·)`
comparison. -/
theorem listSetEq_congr_left (a b c : List String)
    (h : listSetEq a b = true) : listSetEq a c = listSetEq b c := by
  have hab := (listSetEq_iff a b).mp h
  by_cases hac : listSetEq a c = true
  · have hxc := (listSetEq_iff a c).mp hac
    have hbc : listSetEq b c = true :=
      (listSetEq_iff b c).mpr fun x => ((hab x).symm.trans (hxc x))
    rw [hac, hbc]
  · have hbc : ¬listSetEq b c = true := fun hb =>
      hac ((listSetEq_iff a c).mpr fun x =>
        (hab x).trans ((listSetEq_iff b c).mp hb x))
    rw [Bool.not_eq_true] at hac hbc
    rw [hac, hbc]

/-- C2 counterexample: two fetched records differing only in whether `read`
is in the access set.  With `read` present the run is a clean no-op
(changed = false); with `read` removed the very same invocation fails with
the uncaught `ValueError` from `account_detail.access.remove("read")`
(line 215) — the strip is an unconditional `list.remove`, not conditional on
`read` being present — so removing `read` does change the outcome and the
invocation does fail because `read` is absent. -/
theorem c2_counterexample :
    (run { state := .present, name := "TenantA", password := "p",
           user_password := "p", access := ["volumes"], account_id := none,
           new_name := none, attributes := none, status := none,
           check_mode := false }
        [⟨"TenantA", 1, some ["read", "volumes"], none⟩]).result =
      .ok false ∧
    (run { state := .present, name := "TenantA", password := "p",
           user_password := "p", access := ["volumes"], account_id := none,
           new_name := none, attributes := none, status := none,
           check_mode := false }
        [⟨"TenantA", 1, some ["volumes"], none⟩]).result =
      .error .valueError :=
  ⟨rfl, rfl⟩

/-- C2 (amended): among fetched records whose access sets do contain `read`
(as the remote invariant guarantees), the `read` tag is invisible: two
records identical except for access sets that both contain `read` and agree
as sets once one occurrence of `read` is removed produce identical decided
actions, changed values and remote calls.  When `read` is absent from a
non-none fetched access set, however, the strip raises an error instead of
being skipped (see the counterexample). -/
theorem c2_read_invisible_when_present (st : ModuleState) (r : ClusterAdmin)
    (idO : Option Int) (l₁ l₂ : List String)
    (h₁ : l₁.contains "read" = true) (h₂ : l₂.contains "read" = true)
    (hset : listSetEq (l₁.erase "read") (l₂.erase "read") = true) :
    applyCore st (some { r with access := some l₁ }, idO) =
      applyCore st (some { r with access := some l₂ }, idO) := by
  have hm₁ : "read" ∈ l₁ := mem_of_contains h₁
  have hm₂ : "read" ∈ l₂ := mem_of_contains h₂
  have hdec :
      decide_action st (some { r with access := some (l₁.erase "read") }) =
        decide_action st (some { r with access := some (l₂.erase "read") }) := by
    cases hst : st.state with
    | present =>
      simp only [decide_action, hst]
      simp only [listSetEq_congr_left (l₁.erase "read") (l₂.erase "read")
        st.access hset]
    | absent => simp only [decide_action, hst]
  simp [applyCore, stripRead, hm₁, hm₂, hdec]

/-- Witness for C2 (amended): `["read", "volumes"]` versus
`["volumes", "read"]` yield identical outcomes. -/
theorem c2_witness :
    applyCore
        ⟨.present, "TenantA", "p", none, none, none, none, ["volumes"], false⟩
        (some ⟨"TenantA", 1, some ["read", "volumes"], none⟩, some 1) =
      applyCore
        ⟨.present, "TenantA", "p", none, none, none, none, ["volumes"], false⟩
        (some ⟨"TenantA", 1, some ["volumes", "read"], none⟩, some 1) :=
  c2_read_invisible_when_present
    ⟨.present, "TenantA", "p", none, none, none, none, ["volumes"], false⟩
    ⟨"TenantA", 1, some ["read", "volumes"], none⟩ (some 1)
    ["read", "volumes"] ["volumes", "read"] (by decide) (by decide) (by decide)

/-- Neither the decision nor any remote call reads the stored `status`
state variable. -/
theorem applyCore_ignores_status (s : AccountState) (n up : String)
    (aid : Option Int) (nn : Option String)
    (attrs : Option (List (String × String))) (stat₁ stat₂ : Option String)
    (acc : List String) (cm : Bool)
    (fetched : Option ClusterAdmin × Option Int) :
    applyCore ⟨s, n, up, aid, nn, attrs, stat₁, acc, cm⟩ fetched =
      applyCore ⟨s, n, up, aid, nn, attrs, stat₂, acc, cm⟩ fetched := by
  have hdec : ∀ d, decide_action ⟨s, n, up, aid, nn, attrs, stat₁, acc, cm⟩ d =
      decide_action ⟨s, n, up, aid, nn, attrs, stat₂, acc, cm⟩ d := by
    intro d
    cases d with
    | none => cases s <;> rfl
    | some a => cases s <;> rfl
  unfold applyCore
  cases hs : stripRead fetched.1 with
  | error e => rfl
  | ok d => simp [hdec, create_account_call]

/-- C3: the declared `user_password` module parameter and the `status`
parameter are dead after argument parsing — two invocations differing only
in them make identical remote calls and report identical outcomes — and the
password field of the create call is the connection-level `password`
parameter (`self.user_password = p['password']`, line 135), not the
`user_password` parameter. -/
theorem c3_user_password_status_dead (p : Params) (u : String)
    (s : Option String) (remote : List ClusterAdmin) :
    run { p with user_password := u, status := s } remote = run p remote ∧
    ∀ st : ModuleState, init p = .ok st →
      create_account_call st =
        .createAccount "true" p.access p.name p.password p.attributes := by
  obtain ⟨ps, pn, pw, pup, pacc, paid, pnn, pattrs, pstat, pcm⟩ := p
  constructor
  · simp only [run, init, mkState, apply]
    cases h : firstInvalid pacc with
    | some tok => rfl
    | none =>
      exact congrArg
        (fun rr : RunResult => (⟨.connect :: rr.trace, rr.result⟩ : RunResult))
        (applyCore_ignores_status ps pn pw paid pnn pattrs s pstat pacc pcm
          (get_account remote pn paid))
  · intro st hst
    unfold init at hst
    revert hst
    cases h : firstInvalid pacc with
    | some tok => intro hst; cases hst
    | none =>
      intro hst
      injection hst with hst
      rw [← hst]
      rfl

/-- Witness for C3: changing `user_password` and `status` changes nothing,
and the create call carries the connection password `"conn"`. -/
theorem c3_witness :
    run { state := .present, name := "TenantA", password := "conn",
          user_password := "other-secret", access := ["volumes"],
          account_id := none, new_name := none, attributes := none,
          status := some "active", check_mode := false }
        [⟨"TenantA", 1, some ["read", "volumes"], none⟩] =
      run { state := .present, name := "TenantA", password := "conn",
            user_password := "user-secret", access := ["volumes"],
            account_id := none, new_name := none, attributes := none,
            status := none, check_mode := false }
        [⟨"TenantA", 1, some ["read", "volumes"], none⟩] ∧
    create_account_call
        (mkState { state := .present, name := "TenantA", password := "conn",
                   user_password := "user-secret", access := ["volumes"],
                   account_id := none, new_name := none, attributes := none,
                   status := none, check_mode := false }) =
      .createAccount "true" ["volumes"] "TenantA" "conn" none :=
  ⟨(c3_user_password_status_dead
      { state := .present, name := "TenantA", password := "conn",
        user_password := "user-secret", access := ["volumes"],
        account_id := none, new_name := none, attributes := none,
        status := none, check_mode := false }
      "other-secret" (some "active")
      [⟨"TenantA", 1, some ["read", "volumes"], none⟩]).1,
   (c3_user_password_status_dead
      { state := .present, name := "TenantA", password := "conn",
        user_password := "user-secret", access := ["volumes"],
        account_id := none, new_name := none, attributes := none,
        status := none, check_mode := false }
      "other-secret" (some "active")
      [⟨"TenantA", 1, some ["read", "volumes"], none⟩]).2 _ rfl⟩

end SfClusterAccount
